import Mathlib

/-!
# Theme resolution of supersonic (package `ui/theme`, file `theme.go`)

A shallow embedding of `MyTheme.Color`, `MyTheme.getVariant`, `MyTheme.Font`,
`colorOrDefault`, `readTTFFile`, `myThemedResource`, `MyTheme.createThemeIcons`
and `MyTheme.ListThemeFiles`.  Mutable receivers and package-level
variables are passed explicitly; every access to storage and every log line is
recorded in a trace of `Event`s.  What lives outside the package (the file
system, the toolkit default theme, the host appearance) is a field of `Env`.
-/

namespace Supersonic

/-! ## Toolkit types -/

/-- The toolkit type `fyne.ThemeVariant` with its two constants
`theme.VariantDark` and `theme.VariantLight`. -/
inductive ThemeVariant where
  | VariantDark
  | VariantLight
  deriving DecidableEq, Repr

/-- A concrete colour value (`color.Color`), as non-premultiplied 8-bit channels. -/
structure NRGBA where
  R : Nat
  G : Nat
  B : Nat
  A : Nat
  deriving DecidableEq, Repr

/-- The toolkit type `fyne.ThemeColorName`, a string. -/
abbrev ThemeColorName := String

/-- The toolkit type `fyne.TextStyle`. -/
structure TextStyle where
  Bold : Bool := false
  Italic : Bool := false
  Monospace : Bool := false
  Symbol : Bool := false
  TabWidth : Int := 0
  deriving DecidableEq, Repr

/-- The toolkit type `fyne.StaticResource`; a nil `fyne.Resource` is `none`. -/
structure Resource where
  StaticName : String
  StaticContent : List Nat
  deriving DecidableEq, Repr

/-- The toolkit constructor `fyne.NewStaticResource`. -/
def NewStaticResource (name : String) (content : List Nat) : Resource :=
  { StaticName := name, StaticContent := content }

/-! ## Colour names (theme.go line 21 and the toolkit constants) -/

def ColorNamePageBackground : ThemeColorName := "PageBackground"
def ColorNameBackground : ThemeColorName := "background"
def ColorNameButton : ThemeColorName := "button"
def ColorNameDisabled : ThemeColorName := "disabled"
def ColorNameDisabledButton : ThemeColorName := "disabledButton"
def ColorNameError : ThemeColorName := "error"
def ColorNameFocus : ThemeColorName := "focus"
def ColorNameForeground : ThemeColorName := "foreground"
def ColorNameHover : ThemeColorName := "hover"
def ColorNameInputBackground : ThemeColorName := "inputBackground"
def ColorNameInputBorder : ThemeColorName := "inputBorder"
def ColorNameMenuBackground : ThemeColorName := "menuBackground"
def ColorNameOverlayBackground : ThemeColorName := "overlayBackground"
def ColorNamePlaceHolder : ThemeColorName := "placeholder"
def ColorNamePressed : ThemeColorName := "pressed"
def ColorNamePrimary : ThemeColorName := "primary"
def ColorNameScrollBar : ThemeColorName := "scrollBar"
def ColorNameSelection : ThemeColorName := "selection"
def ColorNameSeparator : ThemeColorName := "separator"
def ColorNameShadow : ThemeColorName := "shadow"
def ColorNameSuccess : ThemeColorName := "success"
def ColorNameWarning : ThemeColorName := "warning"

/-! ## Appearance modes (theme.go lines 23-31) -/

abbrev AppearanceMode := String

def AppearanceLight : AppearanceMode := "Light"
def AppearanceDark : AppearanceMode := "Dark"
def AppearanceAuto : AppearanceMode := "Auto"
def DefaultAppearance : AppearanceMode := AppearanceDark

/-! ## Theme files -/

/-- Modelled from the spec: the type `ThemeColors` of themefile.go (not under
src/), the ColorSet of §3.  The field names are those read by `MyTheme.Color`;
each holds a colour string, possibly empty. -/
structure ThemeColors where
  PageBackground : String := ""
  Background : String := ""
  Button : String := ""
  Disabled : String := ""
  DisabledButton : String := ""
  Error : String := ""
  Focus : String := ""
  Foreground : String := ""
  Hover : String := ""
  InputBackground : String := ""
  InputBorder : String := ""
  MenuBackground : String := ""
  OverlayBackground : String := ""
  Placeholder : String := ""
  Pressed : String := ""
  Primary : String := ""
  ScrollBar : String := ""
  Selection : String := ""
  Separator : String := ""
  Shadow : String := ""
  Success : String := ""
  Warning : String := ""
  deriving DecidableEq, Repr

/-- Modelled from the spec: the header of a theme file (themefile.go is not
under src/): display name and declared variant support (§3). -/
structure ThemeFileHeader where
  Name : String
  SupportsDark : Bool
  SupportsLight : Bool
  deriving DecidableEq, Repr

/-- Modelled from the spec: the type `ThemeFile` of themefile.go (not under
src/), with the fields `SupersonicTheme`, `DarkColors`, `LightColors` that
theme.go reads. -/
structure ThemeFile where
  SupersonicTheme : ThemeFileHeader
  DarkColors : ThemeColors
  LightColors : ThemeColors
  deriving DecidableEq, Repr

/-- Modelled from the spec: `ThemeFile.SupportsVariant` of themefile.go (not
under src/): whether the theme declares support for the variant
(`supportsLight` / `supportsDark`, §4.3 step 3). -/
def ThemeFile.SupportsVariant (t : ThemeFile) (v : ThemeVariant) : Bool :=
  match v with
  | .VariantDark => t.SupersonicTheme.SupportsDark
  | .VariantLight => t.SupersonicTheme.SupportsLight

/-! ## Configuration, receiver and package state -/

/-- The fields of `backend.ThemeConfig` that theme.go reads. -/
structure ThemeConfig where
  ThemeFile : String
  Appearance : String
  deriving DecidableEq, Repr

/-- The struct `MyTheme` (theme.go lines 38-47).  `config` is owned by the
application and may change between calls; `loadedThemeFile` is a pointer that
is nil until the first load; `defaultThemeFile` is decoded once by `NewMyTheme`
from the embedded default theme. -/
structure MyTheme where
  NormalFont : String
  BoldFont : String
  config : ThemeConfig
  themeFileDir : String
  loadedThemeFilename : String
  loadedThemeFile : Option ThemeFile
  defaultThemeFile : ThemeFile
  deriving DecidableEq, Repr

/-- The package-level variables `normalFont` and `boldFont` (theme.go lines 33-36). -/
structure FontVars where
  normalFont : Option Resource
  boldFont : Option Resource
  deriving DecidableEq, Repr

/-- What a call does to the outside world, in order. -/
inductive Event where
  | readThemeFile (path : String)
  | readFile (path : String)
  | log (format : String) (args : List String)
  deriving DecidableEq, Repr

/-- Whether an event is an access to storage. -/
def Event.touchesStorage : Event → Bool
  | .readThemeFile _ => true
  | .readFile _ => true
  | .log _ _ => false

/-- Everything theme.go obtains from outside the package. -/
structure Env where
  /-- Result of `ReadThemeFile` (themefile.go) on a path: read and parse. -/
  ReadThemeFile : String → Except String ThemeFile
  /-- Decoding of a non-empty colour string by `ColorStringToColor`. -/
  decodeColor : String → Except String NRGBA
  /-- The library function `path.Join` on two elements. -/
  pathJoin : String → String → String
  /-- The toolkit default theme: `theme.DefaultTheme().Color`. -/
  DefaultThemeColor : ThemeColorName → ThemeVariant → NRGBA
  /-- The toolkit default theme: `theme.DefaultTheme().Font`. -/
  DefaultThemeFont : TextStyle → Resource
  /-- The host appearance: `fyne.CurrentApp().Settings().ThemeVariant()`. -/
  SettingsThemeVariant : ThemeVariant
  /-- The library function `ioutil.ReadFile`. -/
  ReadFile : String → Except String (List Nat)

/-- Modelled from the spec: `ColorStringToColor` of themefile.go (not under
src/).  §3: an entry that is empty is never a colour; how a non-empty string
is decoded is left to the environment. -/
def ColorStringToColor (env : Env) (colorStr : String) : Except String NRGBA :=
  if colorStr = "" then .error "invalid color string" else env.decodeColor colorStr

/-- Modelled from the spec: `sharedutil.SliceContains` (package sharedutil is
not under src/): whether the slice holds the value, by exact, case-sensitive
equality (§6). -/
def SliceContains (ts : List String) (t : String) : Bool :=
  decide (t ∈ ts)

/-! ## getVariant (theme.go lines 237-251) -/

def getVariant (env : Env) (m : MyTheme) : ThemeVariant :=
  let v : AppearanceMode :=
    if SliceContains [AppearanceLight, AppearanceDark, AppearanceAuto] m.config.Appearance then
      m.config.Appearance
    else DefaultAppearance
  if v = AppearanceDark then ThemeVariant.VariantDark
  else if v = AppearanceLight then ThemeVariant.VariantLight
  else env.SettingsThemeVariant

/-! ## Color (theme.go lines 58-135) -/

def colorOrDefault (env : Env) (colorStr : String) (name : ThemeColorName)
    (variant : ThemeVariant) : NRGBA :=
  match ColorStringToColor env colorStr with
  | .ok c => c
  | .error _ => env.DefaultThemeColor name variant

/-- Lines 61-68 of `MyTheme.Color`: read the configured theme file, fall back
to the default theme file on error, and record the file name.  Returns the new
receiver, the theme file now cached and the trace. -/
def reloadThemeFile (env : Env) (m : MyTheme) : MyTheme × ThemeFile × List Event :=
  let p := env.pathJoin m.themeFileDir m.config.ThemeFile
  match env.ReadThemeFile p with
  | .ok t =>
    ({ m with loadedThemeFile := some t, loadedThemeFilename := m.config.ThemeFile }, t,
      [Event.readThemeFile p])
  | .error err =>
    ({ m with loadedThemeFile := some m.defaultThemeFile,
              loadedThemeFilename := m.config.ThemeFile }, m.defaultThemeFile,
      [Event.readThemeFile p,
       Event.log "failed to load theme file %q: %s" [m.config.ThemeFile, err]])

/-- Lines 59-69 and 72 of `MyTheme.Color`: load the theme file if necessary and
dereference `m.loadedThemeFile`. -/
def loadedThemeFileOf (env : Env) (m : MyTheme) : MyTheme × ThemeFile × List Event :=
  match m.loadedThemeFile with
  | none => reloadThemeFile env m
  | some t =>
    if m.config.ThemeFile ≠ m.loadedThemeFilename then reloadThemeFile env m
    else (m, t, [])

/-- Lines 80-127 of `MyTheme.Color`: the switch on the colour name. -/
def colorSwitch (env : Env) (colors : ThemeColors) (name : ThemeColorName)
    (variant : ThemeVariant) : NRGBA :=
  if name = ColorNamePageBackground then colorOrDefault env colors.PageBackground name variant
  else if name = ColorNameBackground then colorOrDefault env colors.Background name variant
  else if name = ColorNameButton then colorOrDefault env colors.Button name variant
  else if name = ColorNameDisabled then colorOrDefault env colors.Disabled name variant
  else if name = ColorNameDisabledButton then
    colorOrDefault env colors.DisabledButton name variant
  else if name = ColorNameError then colorOrDefault env colors.Error name variant
  else if name = ColorNameFocus then colorOrDefault env colors.Focus name variant
  else if name = ColorNameForeground then colorOrDefault env colors.Foreground name variant
  else if name = ColorNameHover then colorOrDefault env colors.Hover name variant
  else if name = ColorNameInputBackground then
    colorOrDefault env colors.InputBackground name variant
  else if name = ColorNameInputBorder then colorOrDefault env colors.InputBorder name variant
  else if name = ColorNameMenuBackground then
    colorOrDefault env colors.MenuBackground name variant
  else if name = ColorNameOverlayBackground then
    colorOrDefault env colors.OverlayBackground name variant
  else if name = ColorNamePlaceHolder then colorOrDefault env colors.Placeholder name variant
  else if name = ColorNamePressed then colorOrDefault env colors.Pressed name variant
  else if name = ColorNamePrimary then colorOrDefault env colors.Primary name variant
  else if name = ColorNameScrollBar then colorOrDefault env colors.ScrollBar name variant
  else if name = ColorNameSelection then colorOrDefault env colors.Selection name variant
  else if name = ColorNameSeparator then colorOrDefault env colors.Separator name variant
  else if name = ColorNameShadow then colorOrDefault env colors.Shadow name variant
  else if name = ColorNameSuccess then colorOrDefault env colors.Success name variant
  else if name = ColorNameWarning then colorOrDefault env colors.Warning name variant
  else colorOrDefault env "" name variant

/-- Lines 76-79 of `MyTheme.Color`: the colour set of a theme file for a variant. -/
def colorsOf (thFile : ThemeFile) (variant : ThemeVariant) : ThemeColors :=
  if variant = ThemeVariant.VariantLight then thFile.LightColors else thFile.DarkColors

/-- Result of a `Color` call: the colour, the receiver afterwards, the trace. -/
structure ColorResult where
  color : NRGBA
  theme : MyTheme
  trace : List Event
  deriving DecidableEq, Repr

/-- Lines 72-75 of `MyTheme.Color`: the loaded theme file, replaced by the
default theme file when it does not support the variant. -/
def themeFileFor (m : MyTheme) (loaded : ThemeFile) (variant : ThemeVariant) : ThemeFile :=
  if !loaded.SupportsVariant variant then m.defaultThemeFile else loaded

/-- The method `MyTheme.Color`; the variant argument is ignored by the source. -/
def Color (env : Env) (m : MyTheme) (name : ThemeColorName) (_ : ThemeVariant) :
    ColorResult :=
  match loadedThemeFileOf env m with
  | (m1, loaded, evs) =>
    let variant := getVariant env m1
    let thFile := themeFileFor m1 loaded variant
    { color := colorSwitch env (colorsOf thFile variant) name variant,
      theme := m1, trace := evs }

/-! ## Font (theme.go lines 201-231) and readTTFFile (lines 253-264) -/

/-- The library function `strings.HasSuffix`. -/
def HasSuffix (s suffix : String) : Bool :=
  suffix.toList.isSuffixOf s.toList

/-- The function `readTTFFile`: the result and the trace. -/
def readTTFFile (env : Env) (filepath : String) : Except String (List Nat) × List Event :=
  if !HasSuffix filepath ".ttf" then
    let err := "only .ttf fonts are supported"
    (.error err, [Event.log "error loading custom font %q: %s" [filepath, err]])
  else
    match env.ReadFile filepath with
    | .ok content => (.ok content, [Event.readFile filepath])
    | .error err =>
      (.error err,
        [Event.readFile filepath, Event.log "error loading custom font %q: %s" [filepath, err]])

/-- Result of a `Font` call: the resource, the receiver and the package
variables afterwards, the trace. -/
structure FontResult where
  resource : Resource
  theme : MyTheme
  vars : FontVars
  trace : List Event
  deriving DecidableEq, Repr

/-- Lines 204-211 of `MyTheme.Font`: the lazy load of the normal font. -/
def loadNormalFont (env : Env) (m : MyTheme) (g : FontVars) :
    MyTheme × FontVars × List Event :=
  if m.NormalFont ≠ "" ∧ g.normalFont = none then
    match readTTFFile env m.NormalFont with
    | (.error _, evs) => ({ m with NormalFont := "", BoldFont := "" }, g, evs)
    | (.ok content, evs) =>
      (m, { g with normalFont := some (NewStaticResource "normalFont" content) }, evs)
  else (m, g, [])

/-- Lines 216-222 of `MyTheme.Font`: the lazy load of the bold font. -/
def loadBoldFont (env : Env) (m : MyTheme) (g : FontVars) :
    MyTheme × FontVars × List Event :=
  if m.BoldFont ≠ "" ∧ g.boldFont = none then
    match env.ReadFile m.BoldFont with
    | .error _ => ({ m with BoldFont := "" }, g, [Event.readFile m.BoldFont])
    | .ok content =>
      (m, { g with normalFont := some (NewStaticResource "boldFont" content) },
        [Event.readFile m.BoldFont])
  else (m, g, [])

/-- The method `MyTheme.Font`. -/
def Font (env : Env) (m : MyTheme) (g : FontVars) (style : TextStyle) : FontResult :=
  if style = {} then
    match loadNormalFont env m g with
    | (m1, g1, evs) =>
      match g1.normalFont with
      | some r => { resource := r, theme := m1, vars := g1, trace := evs }
      | none => { resource := env.DefaultThemeFont style, theme := m1, vars := g1, trace := evs }
  else if style = { Bold := true } then
    match loadBoldFont env m g with
    | (m1, g1, evs) =>
      match g1.boldFont with
      | some r => { resource := r, theme := m1, vars := g1, trace := evs }
      | none =>
        match g1.normalFont with
        | some r => { resource := r, theme := m1, vars := g1, trace := evs }
        | none =>
          { resource := env.DefaultThemeFont style, theme := m1, vars := g1, trace := evs }
  else { resource := env.DefaultThemeFont style, theme := m, vars := g, trace := [] }

/-! ## Themed icons (theme.go lines 153-199) -/

/-- The struct `myThemedResource` (lines 153-157).  `myTheme` is the copy of the
receiver taken by `createThemeIcons`; its `config` is a pointer shared with the
application, so it stands for the configuration at the moment of the call. -/
structure myThemedResource where
  myTheme : MyTheme
  darkVariant : Resource
  lightVariant : Resource
  deriving DecidableEq, Repr

/-- The method `myThemedResource.Content` (lines 161-166). -/
def myThemedResource.Content (env : Env) (p : myThemedResource) : List Nat :=
  if getVariant env p.myTheme = ThemeVariant.VariantDark then p.darkVariant.StaticContent
  else p.lightVariant.StaticContent

/-- The method `myThemedResource.Name` (lines 168-173). -/
def myThemedResource.Name (env : Env) (p : myThemedResource) : String :=
  if getVariant env p.myTheme = ThemeVariant.VariantDark then p.darkVariant.StaticName
  else p.lightVariant.StaticName

/-- The embedded assets of package `res` that `createThemeIcons` names (the
package is not under src/). -/
structure Res where
  ResDiscInvertPng : Resource
  ResDiscPng : Resource
  ResPeopleInvertPng : Resource
  ResPeoplePng : Resource
  ResHeartFilledInvertPng : Resource
  ResHeartFilledPng : Resource
  ResHeartOutlineInvertPng : Resource
  ResHeartOutlinePng : Resource
  ResTheatermasksInvertPng : Resource
  ResTheatermasksPng : Resource
  ResHeadphonesInvertPng : Resource
  ResHeadphonesPng : Resource
  ResPlaylistInvertPng : Resource
  ResPlaylistPng : Resource
  ResShuffleInvertSvg : Resource
  ResShuffleSvg : Resource
  ResMusicnotesInvertPng : Resource
  ResMusicnotesPng : Resource

/-- The package-level icon variables assigned by `createThemeIcons` (lines 175-185). -/
structure ThemeIcons where
  AlbumIcon : myThemedResource
  ArtistIcon : myThemedResource
  FavoriteIcon : myThemedResource
  NotFavoriteIcon : myThemedResource
  GenreIcon : myThemedResource
  NowPlayingIcon : myThemedResource
  PlaylistIcon : myThemedResource
  ShuffleIcon : myThemedResource
  TracksIcon : myThemedResource

/-- The method `MyTheme.createThemeIcons` (lines 189-199). -/
def createThemeIcons (res : Res) (m : MyTheme) : ThemeIcons :=
  { AlbumIcon :=
      { myTheme := m, darkVariant := res.ResDiscInvertPng, lightVariant := res.ResDiscPng },
    ArtistIcon :=
      { myTheme := m, darkVariant := res.ResPeopleInvertPng, lightVariant := res.ResPeoplePng },
    FavoriteIcon :=
      { myTheme := m, darkVariant := res.ResHeartFilledInvertPng,
        lightVariant := res.ResHeartFilledPng },
    NotFavoriteIcon :=
      { myTheme := m, darkVariant := res.ResHeartOutlineInvertPng,
        lightVariant := res.ResHeartOutlinePng },
    GenreIcon :=
      { myTheme := m, darkVariant := res.ResTheatermasksInvertPng,
        lightVariant := res.ResTheatermasksPng },
    NowPlayingIcon :=
      { myTheme := m, darkVariant := res.ResHeadphonesInvertPng,
        lightVariant := res.ResHeadphonesPng },
    PlaylistIcon :=
      { myTheme := m, darkVariant := res.ResPlaylistInvertPng,
        lightVariant := res.ResPlaylistPng },
    ShuffleIcon :=
      { myTheme := m, darkVariant := res.ResShuffleInvertSvg,
        lightVariant := res.ResShuffleSvg },
    TracksIcon :=
      { myTheme := m, darkVariant := res.ResMusicnotesInvertPng,
        lightVariant := res.ResMusicnotesPng } }

/-! ## ListThemeFiles (theme.go lines 141-151) -/

/-- A Go `map[string]string`, as the list of its entries; a key occurs once. -/
abbrev StringMap := List (String × String)

/-- The assignment `result[k] = v` on a map. -/
def StringMap.set (result : StringMap) (k v : String) : StringMap :=
  result.filter (fun e => e.1 ≠ k) ++ [(k, v)]

/-- The method `MyTheme.ListThemeFiles`.  `Glob` is the library function
`filepath.Glob` on the directory contents of the moment; its error is dropped
by the source. -/
def ListThemeFiles (env : Env) (Glob : String → List String) (m : MyTheme) : StringMap :=
  let files := Glob (m.themeFileDir ++ "/*.toml")
  files.foldl
    (fun result filename =>
      match env.ReadThemeFile (env.pathJoin m.themeFileDir filename) with
      | .ok themeFile => result.set filename themeFile.SupersonicTheme.Name
      | .error _ => result)
    []

/-! ## Vocabulary of the statements -/

/-- The theme file `MyTheme.Color` works with once the load step is done. -/
def activeThemeFile (env : Env) (m : MyTheme) : ThemeFile :=
  (loadedThemeFileOf env m).2.1

/-- The condition of line 60: no theme file is cached, or the configured file
name differs from the cached one. -/
def needsLoad (m : MyTheme) : Prop :=
  m.loadedThemeFile = none ∨ m.config.ThemeFile ≠ m.loadedThemeFilename

instance (m : MyTheme) : Decidable (needsLoad m) := by
  unfold needsLoad; infer_instance

/-- The receiver with another appearance setting in its configuration. -/
def withAppearance (m : MyTheme) (a : String) : MyTheme :=
  { m with config := { m.config with Appearance := a } }

/-- The receiver with the default theme file cached under the configured name. -/
def withDefaultCached (m : MyTheme) : MyTheme :=
  { m with loadedThemeFile := some m.defaultThemeFile,
           loadedThemeFilename := m.config.ThemeFile }

/-- The 22 semantic colour names, each with the same-named field of a colour set. -/
def handledColors : List (ThemeColorName × (ThemeColors → String)) :=
  [ (ColorNamePageBackground, ThemeColors.PageBackground),
    (ColorNameBackground, ThemeColors.Background),
    (ColorNameButton, ThemeColors.Button),
    (ColorNameDisabled, ThemeColors.Disabled),
    (ColorNameDisabledButton, ThemeColors.DisabledButton),
    (ColorNameError, ThemeColors.Error),
    (ColorNameFocus, ThemeColors.Focus),
    (ColorNameForeground, ThemeColors.Foreground),
    (ColorNameHover, ThemeColors.Hover),
    (ColorNameInputBackground, ThemeColors.InputBackground),
    (ColorNameInputBorder, ThemeColors.InputBorder),
    (ColorNameMenuBackground, ThemeColors.MenuBackground),
    (ColorNameOverlayBackground, ThemeColors.OverlayBackground),
    (ColorNamePlaceHolder, ThemeColors.Placeholder),
    (ColorNamePressed, ThemeColors.Pressed),
    (ColorNamePrimary, ThemeColors.Primary),
    (ColorNameScrollBar, ThemeColors.ScrollBar),
    (ColorNameSelection, ThemeColors.Selection),
    (ColorNameSeparator, ThemeColors.Separator),
    (ColorNameShadow, ThemeColors.Shadow),
    (ColorNameSuccess, ThemeColors.Success),
    (ColorNameWarning, ThemeColors.Warning) ]

/-- The names of `handledColors`. -/
def handledNames : List ThemeColorName :=
  handledColors.map Prod.fst

/-- Successive `Font` calls, each in the environment of its own moment: the
receiver and the package variables after the last call, and the whole trace. -/
def FontCalls (m : MyTheme) (g : FontVars) :
    List (Env × TextStyle) → MyTheme × FontVars × List Event
  | [] => (m, g, [])
  | (env, style) :: rest =>
    let r := Font env m g style
    let out := FontCalls r.theme r.vars rest
    (out.1, out.2.1, r.trace ++ out.2.2)

/-- The normal-style load is attempted and fails: a path is configured, no
normal font is cached, and `readTTFFile` returns an error. -/
def normalLoadFails (env : Env) (m : MyTheme) (g : FontVars) : Prop :=
  m.NormalFont ≠ "" ∧ g.normalFont = none ∧ ∃ e, (readTTFFile env m.NormalFont).1 = .error e

/-- The bold-style load is attempted and fails: a path is configured, no bold
font is cached, and `ioutil.ReadFile` returns an error. -/
def boldLoadFails (env : Env) (m : MyTheme) (g : FontVars) : Prop :=
  m.BoldFont ≠ "" ∧ g.boldFont = none ∧ ∃ e, env.ReadFile m.BoldFont = .error e

/-! ## Sample data -/

/-- A default theme file: supports both variants. -/
def sampleDefaultTheme : ThemeFile :=
  { SupersonicTheme := { Name := "Default", SupportsDark := true, SupportsLight := true },
    DarkColors := { Primary := "#112233", Background := "#000000" },
    LightColors := { Primary := "#445566", Background := "#ffffff" } }

/-- A custom theme file: supports the Dark variant only. -/
def sampleCustomTheme : ThemeFile :=
  { SupersonicTheme := { Name := "Custom", SupportsDark := true, SupportsLight := false },
    DarkColors := { Primary := "#336699", Background := "", Hover := "nonsense" },
    LightColors := { Primary := "#778899" } }

/-- A colour decoder knowing a handful of hex strings. -/
def sampleDecode (s : String) : Except String NRGBA :=
  if s = "#336699" then .ok { R := 51, G := 102, B := 153, A := 255 }
  else if s = "#112233" then .ok { R := 17, G := 34, B := 51, A := 255 }
  else if s = "#445566" then .ok { R := 68, G := 85, B := 102, A := 255 }
  else if s = "#778899" then .ok { R := 119, G := 136, B := 153, A := 255 }
  else if s = "#000000" then .ok { R := 0, G := 0, B := 0, A := 255 }
  else if s = "#ffffff" then .ok { R := 255, G := 255, B := 255, A := 255 }
  else .error "invalid color string"

/-- A toolkit default palette: one colour per variant. -/
def sampleToolkitColor (_ : ThemeColorName) (v : ThemeVariant) : NRGBA :=
  match v with
  | .VariantDark => { R := 1, G := 1, B := 1, A := 255 }
  | .VariantLight => { R := 254, G := 254, B := 254, A := 255 }

/-- A toolkit default font per style. -/
def sampleToolkitFont (style : TextStyle) : Resource :=
  if style.Bold then { StaticName := "NotoSans-Bold.ttf", StaticContent := [2] }
  else { StaticName := "NotoSans-Regular.ttf", StaticContent := [1] }

/-- An environment with one readable theme file (`themes/custom.toml`), one
readable font file per extension, and the given host appearance. -/
def sampleEnv (host : ThemeVariant) : Env :=
  { ReadThemeFile := fun p =>
      if p = "themes/custom.toml" then .ok sampleCustomTheme else .error "no such file",
    decodeColor := sampleDecode,
    pathJoin := fun d f => d ++ "/" ++ f,
    DefaultThemeColor := sampleToolkitColor,
    DefaultThemeFont := sampleToolkitFont,
    SettingsThemeVariant := host,
    ReadFile := fun p =>
      if p = "fonts/bold.otf" then .ok [79, 84, 84, 79]
      else if p = "fonts/regular.ttf" then .ok [0, 1, 0, 0]
      else .error "no such file" }

/-- A freshly constructed receiver with the given configuration. -/
def sampleTheme (themeFile appearance : String) : MyTheme :=
  { NormalFont := "", BoldFont := "",
    config := { ThemeFile := themeFile, Appearance := appearance },
    themeFileDir := "themes", loadedThemeFilename := "", loadedThemeFile := none,
    defaultThemeFile := sampleDefaultTheme }

/-- A receiver that has the custom theme cached under its file name. -/
def sampleLoadedTheme (appearance : String) : MyTheme :=
  { sampleTheme "custom.toml" appearance with
    loadedThemeFilename := "custom.toml", loadedThemeFile := some sampleCustomTheme }

/-- A receiver with the given font paths configured. -/
def sampleFontTheme (normal bold : String) : MyTheme :=
  { sampleTheme "" "Dark" with NormalFont := normal, BoldFont := bold }

/-- The package variables at program start: no font cached. -/
def noFonts : FontVars :=
  { normalFont := none, boldFont := none }

/-- An environment in which the font files `fonts/regular.ttf` and
`fonts/bold.ttf` are readable. -/
def sampleFontEnv : Env :=
  { sampleEnv ThemeVariant.VariantDark with
    ReadFile := fun p =>
      if p = "fonts/regular.ttf" then .ok [0, 1, 0, 0]
      else if p = "fonts/bold.ttf" then .ok [0, 1, 0, 1]
      else .error "no such file" }

/-- A theme file with the given display name. -/
def sampleNamedTheme (name : String) : ThemeFile :=
  { sampleCustomTheme with
    SupersonicTheme := { Name := name, SupportsDark := true, SupportsLight := true } }

/-- An environment whose directory `themes` holds the well-formed theme files
`a.toml` and `b.toml` and the malformed file `bad.toml`. -/
def sampleDirEnv : Env :=
  { sampleEnv ThemeVariant.VariantDark with
    ReadThemeFile := fun p =>
      if p = "themes/a.toml" then .ok (sampleNamedTheme "Alpha")
      else if p = "themes/b.toml" then .ok (sampleNamedTheme "Beta")
      else if p = "themes/bad.toml" then .error "toml: line 1: expected key"
      else .error "no such file" }

/-- What `filepath.Glob` returns in the directory of `sampleDirEnv`: the matches,
each with the directory of the pattern in front. -/
def sampleGlob (pattern : String) : List String :=
  if pattern = "themes/*.toml" then ["themes/a.toml", "themes/b.toml", "themes/bad.toml"]
  else []

/-- A themed icon over the given receiver. -/
def sampleIcon (m : MyTheme) : myThemedResource :=
  { myTheme := m,
    darkVariant := { StaticName := "disc_invert.png", StaticContent := [255] },
    lightVariant := { StaticName := "disc.png", StaticContent := [0] } }

/-- The themed icon with another appearance setting in the shared configuration. -/
def myThemedResource.withAppearance (p : myThemedResource) (a : String) : myThemedResource :=
  { p with myTheme := Supersonic.withAppearance p.myTheme a }

/-! ## Basic facts -/

theorem reloadThemeFile_frame (env : Env) (m : MyTheme) :
    (reloadThemeFile env m).1.config = m.config ∧
    (reloadThemeFile env m).1.defaultThemeFile = m.defaultThemeFile ∧
    (reloadThemeFile env m).1.themeFileDir = m.themeFileDir ∧
    (reloadThemeFile env m).1.NormalFont = m.NormalFont ∧
    (reloadThemeFile env m).1.BoldFont = m.BoldFont := by
  unfold reloadThemeFile
  dsimp only
  split <;> simp

theorem loadedThemeFileOf_frame (env : Env) (m : MyTheme) :
    (loadedThemeFileOf env m).1.config = m.config ∧
    (loadedThemeFileOf env m).1.defaultThemeFile = m.defaultThemeFile ∧
    (loadedThemeFileOf env m).1.themeFileDir = m.themeFileDir ∧
    (loadedThemeFileOf env m).1.NormalFont = m.NormalFont ∧
    (loadedThemeFileOf env m).1.BoldFont = m.BoldFont := by
  unfold loadedThemeFileOf
  cases m.loadedThemeFile with
  | none => exact reloadThemeFile_frame env m
  | some t =>
    by_cases hne : m.config.ThemeFile ≠ m.loadedThemeFilename
    · simpa [hne] using reloadThemeFile_frame env m
    · simp [hne]

theorem getVariant_congr (env : Env) (m1 m2 : MyTheme) (h : m1.config = m2.config) :
    getVariant env m1 = getVariant env m2 := by
  simp [getVariant, h]

theorem themeFileFor_congr (m1 m2 : MyTheme) (loaded : ThemeFile) (v : ThemeVariant)
    (h : m1.defaultThemeFile = m2.defaultThemeFile) :
    themeFileFor m1 loaded v = themeFileFor m2 loaded v := by
  simp [themeFileFor, h]

/-- The colour returned by `Color`, as a function of the receiver before the call. -/
theorem Color_color (env : Env) (m : MyTheme) (name : ThemeColorName) (arg : ThemeVariant) :
    (Color env m name arg).color =
      colorSwitch env
        (colorsOf (themeFileFor m (activeThemeFile env m) (getVariant env m)) (getVariant env m))
        name (getVariant env m) := by
  have hf := loadedThemeFileOf_frame env m
  have hv := getVariant_congr env _ _ hf.1
  have ht := themeFileFor_congr (loadedThemeFileOf env m).1 m (activeThemeFile env m)
    (getVariant env m) hf.2.1
  simp only [Color, activeThemeFile] at *
  rw [hv, ht]

theorem Color_theme (env : Env) (m : MyTheme) (name : ThemeColorName) (arg : ThemeVariant) :
    (Color env m name arg).theme = (loadedThemeFileOf env m).1 ∧
    (Color env m name arg).trace = (loadedThemeFileOf env m).2.2 := by
  simp [Color]

theorem colorSwitch_of_mem (env : Env) (colors : ThemeColors) (name : ThemeColorName)
    (field : ThemeColors → String) (v : ThemeVariant) (h : (name, field) ∈ handledColors) :
    colorSwitch env colors name v = colorOrDefault env (field colors) name v := by
  simp only [handledColors, List.mem_cons, Prod.mk.injEq, List.mem_singleton, List.not_mem_nil,
    or_false] at h
  rcases h with h | h | h | h | h | h | h | h | h | h | h | h | h | h | h | h | h | h | h | h |
    h | h <;> obtain ⟨h1, h2⟩ := h <;> subst h1 <;> subst h2 <;>
    simp [colorSwitch, ColorNamePageBackground, ColorNameBackground, ColorNameButton,
      ColorNameDisabled, ColorNameDisabledButton, ColorNameError, ColorNameFocus,
      ColorNameForeground, ColorNameHover, ColorNameInputBackground, ColorNameInputBorder,
      ColorNameMenuBackground, ColorNameOverlayBackground, ColorNamePlaceHolder,
      ColorNamePressed, ColorNamePrimary, ColorNameScrollBar, ColorNameSelection,
      ColorNameSeparator, ColorNameShadow, ColorNameSuccess, ColorNameWarning]

theorem colorSwitch_of_not_mem (env : Env) (colors : ThemeColors) (name : ThemeColorName)
    (v : ThemeVariant) (h : name ∉ handledNames) :
    colorSwitch env colors name v = colorOrDefault env "" name v := by
  simp only [handledNames, handledColors, List.map_cons, List.map_nil, List.mem_cons,
    List.mem_singleton, List.not_mem_nil, or_false, not_or] at h
  obtain ⟨h1, h2, h3, h4, h5, h6, h7, h8, h9, h10, h11, h12, h13, h14, h15, h16, h17, h18,
    h19, h20, h21, h22⟩ := h
  simp [colorSwitch, h1, h2, h3, h4, h5, h6, h7, h8, h9, h10, h11, h12, h13, h14, h15, h16,
    h17, h18, h19, h20, h21, h22]

theorem colorOrDefault_of_ok (env : Env) (s : String) (name : ThemeColorName)
    (v : ThemeVariant) (c : NRGBA) (h : ColorStringToColor env s = .ok c) :
    colorOrDefault env s name v = c := by
  simp [colorOrDefault, h]

theorem colorOrDefault_of_error (env : Env) (s : String) (name : ThemeColorName)
    (v : ThemeVariant) (e : String) (h : ColorStringToColor env s = .error e) :
    colorOrDefault env s name v = env.DefaultThemeColor name v := by
  simp [colorOrDefault, h]

theorem colorOrDefault_empty (env : Env) (name : ThemeColorName) (v : ThemeVariant) :
    colorOrDefault env "" name v = env.DefaultThemeColor name v := by
  simp [colorOrDefault, ColorStringToColor]

theorem loadedThemeFileOf_of_needsLoad (env : Env) (m : MyTheme) (h : needsLoad m) :
    loadedThemeFileOf env m = reloadThemeFile env m := by
  unfold loadedThemeFileOf
  cases hl : m.loadedThemeFile with
  | none => rfl
  | some t =>
    rcases h with h | h
    · rw [hl] at h; cases h
    · simp [h]

theorem loadedThemeFileOf_of_cached (env : Env) (m : MyTheme) (h : ¬ needsLoad m) :
    ∃ t, m.loadedThemeFile = some t ∧ loadedThemeFileOf env m = (m, t, []) := by
  unfold needsLoad at h
  rw [not_or] at h
  obtain ⟨h1, h2⟩ := h
  cases hl : m.loadedThemeFile with
  | none => exact absurd hl h1
  | some t =>
    refine ⟨t, rfl, ?_⟩
    unfold loadedThemeFileOf
    simp only [hl]
    rw [if_neg h2]

theorem reloadThemeFile_ok (env : Env) (m : MyTheme) (t : ThemeFile)
    (h : env.ReadThemeFile (env.pathJoin m.themeFileDir m.config.ThemeFile) = .ok t) :
    reloadThemeFile env m =
      ({ m with loadedThemeFile := some t, loadedThemeFilename := m.config.ThemeFile }, t,
        [Event.readThemeFile (env.pathJoin m.themeFileDir m.config.ThemeFile)]) := by
  simp [reloadThemeFile, h]

theorem reloadThemeFile_error (env : Env) (m : MyTheme) (e : String)
    (h : env.ReadThemeFile (env.pathJoin m.themeFileDir m.config.ThemeFile) = .error e) :
    reloadThemeFile env m =
      ({ m with loadedThemeFile := some m.defaultThemeFile,
                loadedThemeFilename := m.config.ThemeFile }, m.defaultThemeFile,
        [Event.readThemeFile (env.pathJoin m.themeFileDir m.config.ThemeFile),
         Event.log "failed to load theme file %q: %s" [m.config.ThemeFile, e]]) := by
  simp [reloadThemeFile, h]

/-! ## Color -/

/-- C1: when the loaded theme file does not support the effective variant,
`Color` resolves the name in the default theme file's colour set for that
variant (LightColors under Light, DarkColors under Dark) and in no colour set
of the loaded theme: for each handled name the result is the parsed colour of
the same-named field of the default theme file's set, the toolkit default when
that string does not parse, and the toolkit default for an unhandled name; in
particular a theme with supportsDark = true and supportsLight = false resolved
under Light yields the parsed Light value of the default theme. -/
theorem Color_unsupported_variant_uses_default (env : Env) (m : MyTheme)
    (name : ThemeColorName) (arg : ThemeVariant) :
    ((activeThemeFile env m).SupportsVariant (getVariant env m) = false →
      (Color env m name arg).color =
          colorSwitch env (colorsOf m.defaultThemeFile (getVariant env m)) name
            (getVariant env m) ∧
      (getVariant env m = ThemeVariant.VariantLight →
        (Color env m name arg).color =
          colorSwitch env m.defaultThemeFile.LightColors name ThemeVariant.VariantLight) ∧
      (getVariant env m = ThemeVariant.VariantDark →
        (Color env m name arg).color =
          colorSwitch env m.defaultThemeFile.DarkColors name ThemeVariant.VariantDark) ∧
      (∀ (field : ThemeColors → String) (c : NRGBA), (name, field) ∈ handledColors →
        (getVariant env m = ThemeVariant.VariantLight →
          ColorStringToColor env (field m.defaultThemeFile.LightColors) = .ok c →
          (Color env m name arg).color = c) ∧
        (getVariant env m = ThemeVariant.VariantDark →
          ColorStringToColor env (field m.defaultThemeFile.DarkColors) = .ok c →
          (Color env m name arg).color = c)) ∧
      (∀ (field : ThemeColors → String) (e : String), (name, field) ∈ handledColors →
        ColorStringToColor env
          (field (colorsOf m.defaultThemeFile (getVariant env m))) = .error e →
        (Color env m name arg).color = env.DefaultThemeColor name (getVariant env m)) ∧
      (name ∉ handledNames →
        (Color env m name arg).color = env.DefaultThemeColor name (getVariant env m))) ∧
    ((activeThemeFile env m).SupersonicTheme.SupportsDark = true →
      (activeThemeFile env m).SupersonicTheme.SupportsLight = false →
      getVariant env m = ThemeVariant.VariantLight →
      (Color env m name arg).color =
        colorSwitch env m.defaultThemeFile.LightColors name ThemeVariant.VariantLight ∧
      ∀ (field : ThemeColors → String) (c : NRGBA), (name, field) ∈ handledColors →
        ColorStringToColor env (field m.defaultThemeFile.LightColors) = .ok c →
        (Color env m name arg).color = c) := by
  have key : (activeThemeFile env m).SupportsVariant (getVariant env m) = false →
      (Color env m name arg).color =
        colorSwitch env (colorsOf m.defaultThemeFile (getVariant env m)) name
          (getVariant env m) := by
    intro h
    rw [Color_color]
    simp [themeFileFor, h]
  have keyL : (activeThemeFile env m).SupportsVariant (getVariant env m) = false →
      getVariant env m = ThemeVariant.VariantLight →
      (Color env m name arg).color =
        colorSwitch env m.defaultThemeFile.LightColors name ThemeVariant.VariantLight := by
    intro h hv
    have := key h
    rw [hv] at this
    simpa [colorsOf] using this
  have keyD : (activeThemeFile env m).SupportsVariant (getVariant env m) = false →
      getVariant env m = ThemeVariant.VariantDark →
      (Color env m name arg).color =
        colorSwitch env m.defaultThemeFile.DarkColors name ThemeVariant.VariantDark := by
    intro h hv
    have := key h
    rw [hv] at this
    simpa [colorsOf] using this
  refine ⟨fun h => ⟨key h, keyL h, keyD h, ?_, ?_, ?_⟩, ?_⟩
  · intro field c hmem
    refine ⟨fun hv hp => ?_, fun hv hp => ?_⟩
    · rw [keyL h hv, colorSwitch_of_mem env _ name field _ hmem]
      exact colorOrDefault_of_ok env _ name _ c hp
    · rw [keyD h hv, colorSwitch_of_mem env _ name field _ hmem]
      exact colorOrDefault_of_ok env _ name _ c hp
  · intro field e hmem he
    rw [key h, colorSwitch_of_mem env _ name field _ hmem]
    exact colorOrDefault_of_error env _ name _ e he
  · intro hnot
    rw [key h, colorSwitch_of_not_mem env _ name _ hnot]
    exact colorOrDefault_empty env name _
  · intro _ hl hv
    have hu : (activeThemeFile env m).SupportsVariant (getVariant env m) = false := by
      rw [hv]; simpa [ThemeFile.SupportsVariant] using hl
    refine ⟨keyL hu hv, fun field c hmem hp => ?_⟩
    rw [keyL hu hv, colorSwitch_of_mem env _ name field _ hmem]
    exact colorOrDefault_of_ok env _ name _ c hp

/-- Witness of C1: the Dark-only sample theme (Dark.Primary = "#336699",
Light.Primary = "#778899") under the Light setting gives, for the name Primary,
the parsed Light.Primary = "#445566" of the default theme, which is neither of
the custom theme's values nor the toolkit colour. -/
theorem Color_unsupported_variant_uses_default_witness :
    (Color (sampleEnv ThemeVariant.VariantDark) (sampleLoadedTheme "Light") ColorNamePrimary
        ThemeVariant.VariantDark).color = { R := 68, G := 85, B := 102, A := 255 } :=
  ((Color_unsupported_variant_uses_default (sampleEnv ThemeVariant.VariantDark)
    (sampleLoadedTheme "Light") ColorNamePrimary ThemeVariant.VariantDark).2
    (by decide) (by decide) (by decide)).2 ThemeColors.Primary
    { R := 68, G := 85, B := 102, A := 255 } (by simp [handledColors]) (by rfl)

/-- C2: for each of the 22 handled names, when the active theme supports the
effective variant and the string in the same-named field of that variant's
colour set parses, `Color` returns exactly the parsed colour; the table of
names has 22 entries without repetition. -/
theorem Color_returns_parsed_field (env : Env) (m : MyTheme) (name : ThemeColorName)
    (arg : ThemeVariant) (field : ThemeColors → String) (c : NRGBA)
    (hmem : (name, field) ∈ handledColors)
    (hsup : (activeThemeFile env m).SupportsVariant (getVariant env m) = true)
    (hparse : ColorStringToColor env
      (field (colorsOf (activeThemeFile env m) (getVariant env m))) = .ok c) :
    (Color env m name arg).color = c ∧ handledColors.length = 22 ∧ handledNames.Nodup := by
  refine ⟨?_, rfl, by decide⟩
  rw [Color_color]
  simp only [themeFileFor, hsup, Bool.not_true, Bool.false_eq_true, if_false]
  rw [colorSwitch_of_mem env _ name field _ hmem]
  exact colorOrDefault_of_ok env _ name _ c hparse

/-- Witness of C2: Dark.Primary = "#336699" under the Dark setting. -/
theorem Color_returns_parsed_field_witness :
    (Color (sampleEnv ThemeVariant.VariantLight) (sampleLoadedTheme "Dark") ColorNamePrimary
        ThemeVariant.VariantLight).color = { R := 51, G := 102, B := 153, A := 255 } :=
  (Color_returns_parsed_field (sampleEnv ThemeVariant.VariantLight) (sampleLoadedTheme "Dark")
    ColorNamePrimary ThemeVariant.VariantLight ThemeColors.Primary
    { R := 51, G := 102, B := 153, A := 255 } (by simp [handledColors]) (by decide)
    (by rfl)).1

/-- C3: if the name is not one of the handled names, or the string stored for
it in the chosen colour set is empty or fails to parse, `Color` returns the
toolkit default colour for the same name and the same effective variant. -/
theorem Color_falls_back_to_toolkit (env : Env) (m : MyTheme) (name : ThemeColorName)
    (arg : ThemeVariant)
    (h : name ∉ handledNames ∨
      ∃ field, (name, field) ∈ handledColors ∧
        (field (colorsOf (themeFileFor m (activeThemeFile env m) (getVariant env m))
            (getVariant env m)) = "" ∨
         ∃ e, ColorStringToColor env
            (field (colorsOf (themeFileFor m (activeThemeFile env m) (getVariant env m))
              (getVariant env m))) = .error e)) :
    (Color env m name arg).color = env.DefaultThemeColor name (getVariant env m) := by
  rw [Color_color]
  rcases h with h | ⟨field, hmem, h | ⟨e, he⟩⟩
  · rw [colorSwitch_of_not_mem env _ name _ h]
    exact colorOrDefault_empty env name _
  · rw [colorSwitch_of_mem env _ name field _ hmem, h]
    exact colorOrDefault_empty env name _
  · rw [colorSwitch_of_mem env _ name field _ hmem]
    exact colorOrDefault_of_error env _ name _ e he

/-- Witness of C3: Dark.Background = "" in the sample theme under the Dark
setting. -/
theorem Color_falls_back_to_toolkit_witness :
    (Color (sampleEnv ThemeVariant.VariantLight) (sampleLoadedTheme "Dark") ColorNameBackground
        ThemeVariant.VariantLight).color =
      sampleToolkitColor ColorNameBackground ThemeVariant.VariantDark :=
  Color_falls_back_to_toolkit (sampleEnv ThemeVariant.VariantLight) (sampleLoadedTheme "Dark")
    ColorNameBackground ThemeVariant.VariantLight
    (Or.inr ⟨ThemeColors.Background, by simp [handledColors], Or.inl (by decide)⟩)

/-- C4: the theme-file cache is keyed by the path string alone.  A `Color`
call touches storage exactly when no theme file is cached or the configured
file name differs from the cached one; otherwise the receiver is unchanged and
the trace is empty; when it loads, it reads the configured path once and the
cached entry becomes the file read (the default theme file if the read fails),
whatever was cached before; after every call the cached file name is the
configured one. -/
theorem Color_cache_keyed_by_path (env : Env) (m : MyTheme) (name : ThemeColorName)
    (arg : ThemeVariant) :
    ((Color env m name arg).trace.any Event.touchesStorage = true ↔ needsLoad m) ∧
    (¬ needsLoad m → (Color env m name arg).theme = m ∧ (Color env m name arg).trace = []) ∧
    (needsLoad m →
      (Color env m name arg).trace.filter Event.touchesStorage =
        [Event.readThemeFile (env.pathJoin m.themeFileDir m.config.ThemeFile)] ∧
      (Color env m name arg).theme.loadedThemeFile =
        some (match env.ReadThemeFile (env.pathJoin m.themeFileDir m.config.ThemeFile) with
              | .ok t => t
              | .error _ => m.defaultThemeFile)) ∧
    (Color env m name arg).theme.loadedThemeFilename = m.config.ThemeFile ∧
    (Color env m name arg).theme.config = m.config := by
  obtain ⟨hth, htr⟩ := Color_theme env m name arg
  rw [hth, htr]
  by_cases hn : needsLoad m
  · rw [loadedThemeFileOf_of_needsLoad env m hn]
    cases hr : env.ReadThemeFile (env.pathJoin m.themeFileDir m.config.ThemeFile) with
    | ok t =>
      rw [reloadThemeFile_ok env m t hr]
      simp [hn, Event.touchesStorage]
    | error e =>
      rw [reloadThemeFile_error env m e hr]
      simp [hn, Event.touchesStorage]
  · obtain ⟨t, hl, hc⟩ := loadedThemeFileOf_of_cached env m hn
    rw [hc]
    have h2 : m.config.ThemeFile = m.loadedThemeFilename := by
      unfold needsLoad at hn
      rw [not_or] at hn
      exact not_not.mp hn.2
    simp [hn, h2]

/-- Witness of C4: a first call loads `themes/custom.toml`; a second call with
the same configured name leaves the receiver unchanged and reads nothing. -/
theorem Color_cache_keyed_by_path_witness :
    (Color (sampleEnv ThemeVariant.VariantDark) (sampleTheme "custom.toml" "Dark")
        ColorNamePrimary ThemeVariant.VariantDark).theme = sampleLoadedTheme "Dark" ∧
    (Color (sampleEnv ThemeVariant.VariantDark) (sampleLoadedTheme "Dark")
        ColorNamePrimary ThemeVariant.VariantDark).theme = sampleLoadedTheme "Dark" ∧
    (Color (sampleEnv ThemeVariant.VariantDark) (sampleLoadedTheme "Dark")
        ColorNamePrimary ThemeVariant.VariantDark).trace = [] :=
  ⟨by decide,
   ((Color_cache_keyed_by_path (sampleEnv ThemeVariant.VariantDark) (sampleLoadedTheme "Dark")
      ColorNamePrimary ThemeVariant.VariantDark).2.1 (by decide)).1,
   ((Color_cache_keyed_by_path (sampleEnv ThemeVariant.VariantDark) (sampleLoadedTheme "Dark")
      ColorNamePrimary ThemeVariant.VariantDark).2.1 (by decide)).2⟩

/-- C5: when the read or parse of the configured theme file fails, `Color`
takes the default theme file as the active theme: the colour is the one
returned when the default theme file itself is the cached theme, for every
name and variant, and the call returns. -/
theorem Color_read_failure_uses_default (env : Env) (m : MyTheme) (name : ThemeColorName)
    (arg : ThemeVariant) (e : String) (hneed : needsLoad m)
    (hfail : env.ReadThemeFile (env.pathJoin m.themeFileDir m.config.ThemeFile) = .error e) :
    (Color env m name arg).color =
      (Color env (withDefaultCached m) name arg).color ∧
    (Color env m name arg).color =
      colorSwitch env (colorsOf m.defaultThemeFile (getVariant env m)) name
        (getVariant env m) ∧
    (Color env m name arg).theme.loadedThemeFile = some m.defaultThemeFile := by
  have hact : activeThemeFile env m = m.defaultThemeFile := by
    unfold activeThemeFile
    rw [loadedThemeFileOf_of_needsLoad env m hneed, reloadThemeFile_error env m e hfail]
  have hact2 : activeThemeFile env (withDefaultCached m) = m.defaultThemeFile := by
    simp [activeThemeFile, loadedThemeFileOf, withDefaultCached]
  have hcol : (Color env m name arg).color =
      colorSwitch env (colorsOf m.defaultThemeFile (getVariant env m)) name
        (getVariant env m) := by
    rw [Color_color, hact]
    simp [themeFileFor]
  refine ⟨?_, hcol, ?_⟩
  · rw [hcol, Color_color, hact2]
    simp [themeFileFor, getVariant, withDefaultCached]
  · rw [(Color_theme env m name arg).1, loadedThemeFileOf_of_needsLoad env m hneed,
      reloadThemeFile_error env m e hfail]

/-- Witness of C5: the configured file `missing.toml` cannot be read. -/
theorem Color_read_failure_uses_default_witness :
    (Color (sampleEnv ThemeVariant.VariantDark) (sampleTheme "missing.toml" "Light")
        ColorNamePrimary ThemeVariant.VariantDark).color =
      colorSwitch (sampleEnv ThemeVariant.VariantDark)
        (colorsOf sampleDefaultTheme ThemeVariant.VariantLight) ColorNamePrimary
        ThemeVariant.VariantLight :=
  (Color_read_failure_uses_default (sampleEnv ThemeVariant.VariantDark)
    (sampleTheme "missing.toml" "Light") ColorNamePrimary ThemeVariant.VariantDark
    "no such file" (by decide) (by rfl)).2.1

/-! ## getVariant -/

theorem getVariant_of_not_listed (env : Env) (m : MyTheme)
    (h : m.config.Appearance ∉ [AppearanceLight, AppearanceDark, AppearanceAuto]) :
    getVariant env m = ThemeVariant.VariantDark := by
  simp [getVariant, SliceContains, h, DefaultAppearance]

/-- C6: `getVariant` returns Light for the setting "Light" and Dark for the
setting "Dark", whatever the host reports, and the host variant for the setting
"Auto"; with "Auto" and a host reporting Light, `Color` resolves the name in a
Light colour set. -/
theorem getVariant_explicit_and_auto (env : Env) (m : MyTheme) :
    (m.config.Appearance = "Light" → getVariant env m = ThemeVariant.VariantLight) ∧
    (m.config.Appearance = "Dark" → getVariant env m = ThemeVariant.VariantDark) ∧
    (m.config.Appearance = "Auto" → getVariant env m = env.SettingsThemeVariant) ∧
    (m.config.Appearance = "Auto" → env.SettingsThemeVariant = ThemeVariant.VariantLight →
      ∀ name arg, (Color env m name arg).color =
        colorSwitch env
          (themeFileFor m (activeThemeFile env m) ThemeVariant.VariantLight).LightColors
          name ThemeVariant.VariantLight) := by
  have hL : m.config.Appearance = "Light" → getVariant env m = ThemeVariant.VariantLight := by
    intro h
    simp [getVariant, SliceContains, h, AppearanceLight, AppearanceDark, AppearanceAuto]
  have hD : m.config.Appearance = "Dark" → getVariant env m = ThemeVariant.VariantDark := by
    intro h
    simp [getVariant, SliceContains, h, AppearanceLight, AppearanceDark, AppearanceAuto]
  have hA : m.config.Appearance = "Auto" → getVariant env m = env.SettingsThemeVariant := by
    intro h
    simp [getVariant, SliceContains, h, AppearanceLight, AppearanceDark, AppearanceAuto]
  refine ⟨hL, hD, hA, ?_⟩
  intro h hhost name arg
  rw [Color_color, hA h, hhost]
  simp [colorsOf]

/-- Witness of C6 on the sample data: an Auto setting under a host reporting
Light. -/
theorem getVariant_explicit_and_auto_witness :
    getVariant (sampleEnv ThemeVariant.VariantDark) (sampleLoadedTheme "Light") =
        ThemeVariant.VariantLight ∧
    getVariant (sampleEnv ThemeVariant.VariantLight) (sampleLoadedTheme "Dark") =
        ThemeVariant.VariantDark ∧
    getVariant (sampleEnv ThemeVariant.VariantLight) (sampleLoadedTheme "Auto") =
        ThemeVariant.VariantLight :=
  ⟨(getVariant_explicit_and_auto (sampleEnv ThemeVariant.VariantDark)
      (sampleLoadedTheme "Light")).1 rfl,
   (getVariant_explicit_and_auto (sampleEnv ThemeVariant.VariantLight)
      (sampleLoadedTheme "Dark")).2.1 rfl,
   (getVariant_explicit_and_auto (sampleEnv ThemeVariant.VariantLight)
      (sampleLoadedTheme "Auto")).2.2.1 rfl⟩

/-- Counterexample to C7 as stated: with an empty appearance setting and a host
reporting Light, `getVariant` does not return the host variant. -/
theorem getVariant_unrecognized_counterexample :
    "" ∉ [AppearanceLight, AppearanceDark, AppearanceAuto] ∧
    getVariant (sampleEnv ThemeVariant.VariantLight) (sampleTheme "" "") ≠
      (sampleEnv ThemeVariant.VariantLight).SettingsThemeVariant := by
  decide

/-- C7, amended: for every appearance setting that is not one of "Light",
"Dark", "Auto" (the empty string included), `getVariant` returns the Dark
variant, and the result does not depend on the host environment. -/
theorem getVariant_unrecognized_is_dark (env : Env) (m : MyTheme)
    (h : m.config.Appearance ∉ [AppearanceLight, AppearanceDark, AppearanceAuto]) :
    getVariant env m = ThemeVariant.VariantDark ∧
    ∀ env2 : Env, getVariant env2 m = getVariant env m := by
  refine ⟨getVariant_of_not_listed env m h, fun env2 => ?_⟩
  rw [getVariant_of_not_listed env m h, getVariant_of_not_listed env2 m h]

/-- Witness of C7, amended: the empty setting under a host reporting Light. -/
theorem getVariant_unrecognized_is_dark_witness :
    getVariant (sampleEnv ThemeVariant.VariantLight) (sampleTheme "" "") =
      ThemeVariant.VariantDark :=
  (getVariant_unrecognized_is_dark (sampleEnv ThemeVariant.VariantLight) (sampleTheme "" "")
    (by decide)).1

/-- C8: matching of the appearance setting is case-sensitive, the default mode
is Dark, and every setting other than the three literals gives the same result
as the setting "Dark". -/
theorem getVariant_unrecognized_as_dark_setting (env : Env) (m : MyTheme)
    (h : m.config.Appearance ∉ [AppearanceLight, AppearanceDark, AppearanceAuto]) :
    getVariant env m = getVariant env (withAppearance m "Dark") ∧
    DefaultAppearance = "Dark" := by
  refine ⟨?_, rfl⟩
  rw [getVariant_of_not_listed env m h]
  simp [getVariant, withAppearance, SliceContains, AppearanceLight, AppearanceDark,
    AppearanceAuto]

/-- Witness of C8: the settings "light", "DARK" and "" under a host reporting
Light. -/
theorem getVariant_unrecognized_as_dark_setting_witness :
    getVariant (sampleEnv ThemeVariant.VariantLight) (sampleTheme "" "light") =
      getVariant (sampleEnv ThemeVariant.VariantLight) (sampleTheme "" "Dark") ∧
    getVariant (sampleEnv ThemeVariant.VariantLight) (sampleTheme "" "DARK") =
      getVariant (sampleEnv ThemeVariant.VariantLight) (sampleTheme "" "Dark") ∧
    getVariant (sampleEnv ThemeVariant.VariantLight) (sampleTheme "" "") =
      getVariant (sampleEnv ThemeVariant.VariantLight) (sampleTheme "" "Dark") :=
  ⟨(getVariant_unrecognized_as_dark_setting (sampleEnv ThemeVariant.VariantLight)
      (sampleTheme "" "light") (by decide)).1,
   (getVariant_unrecognized_as_dark_setting (sampleEnv ThemeVariant.VariantLight)
      (sampleTheme "" "DARK") (by decide)).1,
   (getVariant_unrecognized_as_dark_setting (sampleEnv ThemeVariant.VariantLight)
      (sampleTheme "" "") (by decide)).1⟩

/-! ## Font -/

theorem readTTFFile_of_not_ttf (env : Env) (path : String)
    (h : HasSuffix path ".ttf" = false) :
    readTTFFile env path =
      (.error "only .ttf fonts are supported",
        [Event.log "error loading custom font %q: %s" [path, "only .ttf fonts are supported"]]) := by
  simp [readTTFFile, h]

/-- With both font paths empty, a `Font` call of any style changes nothing and
attempts no load. -/
theorem Font_idle (env : Env) (m : MyTheme) (g : FontVars) (style : TextStyle)
    (hn : m.NormalFont = "") (hb : m.BoldFont = "") :
    (Font env m g style).theme = m ∧ (Font env m g style).vars = g ∧
    (Font env m g style).trace = [] := by
  unfold Font
  by_cases h1 : style = {}
  · simp only [h1, if_true, loadNormalFont, hn, ne_eq, not_true_eq_false, false_and, if_false]
    cases g.normalFont <;> simp
  · by_cases h2 : style = { Bold := true }
    · simp only [h1, h2, if_false, if_true, loadBoldFont, hb, ne_eq, not_true_eq_false,
        false_and]
      cases g.boldFont <;> cases g.normalFont <;> simp
    · simp [h1, h2]

theorem FontCalls_idle (m : MyTheme) (g : FontVars) (calls : List (Env × TextStyle))
    (hn : m.NormalFont = "") (hb : m.BoldFont = "") :
    FontCalls m g calls = (m, g, []) := by
  induction calls with
  | nil => rfl
  | cons c rest ih =>
    obtain ⟨env, style⟩ := c
    obtain ⟨h1, h2, h3⟩ := Font_idle env m g style hn hb
    simp only [FontCalls, h1, h2, h3, ih, List.nil_append]

/-- C9: for every path that does not end in ".ttf", `readTTFFile` returns an
error without reading the file; a normal-style `Font` request with such a path
configured and no normal font cached leaves the normal slot unset, clears
`NormalFont`, returns the toolkit default font, and after any further `Font`
calls a normal-style request still returns the toolkit default font, with no
load attempted in between or then. -/
theorem Font_rejects_non_ttf_normal (env : Env) (m : MyTheme) (g : FontVars) (path : String)
    (hsuf : HasSuffix path ".ttf" = false) :
    (readTTFFile env path).1 = .error "only .ttf fonts are supported" ∧
    (readTTFFile env path).2.any Event.touchesStorage = false ∧
    (path ≠ "" → m.NormalFont = path → g.normalFont = none →
      (Font env m g {}).vars.normalFont = none ∧
      (Font env m g {}).theme.NormalFont = "" ∧
      (Font env m g {}).resource = env.DefaultThemeFont {} ∧
      (Font env m g {}).trace.any Event.touchesStorage = false ∧
      ∀ (calls : List (Env × TextStyle)) (env2 : Env),
        (FontCalls (Font env m g {}).theme (Font env m g {}).vars calls).2.2 = [] ∧
        (Font env2 (FontCalls (Font env m g {}).theme (Font env m g {}).vars calls).1
            (FontCalls (Font env m g {}).theme (Font env m g {}).vars calls).2.1 {}).resource =
          env2.DefaultThemeFont {} ∧
        (Font env2 (FontCalls (Font env m g {}).theme (Font env m g {}).vars calls).1
            (FontCalls (Font env m g {}).theme (Font env m g {}).vars calls).2.1 {}).trace =
          []) := by
  have hr := readTTFFile_of_not_ttf env path hsuf
  refine ⟨by rw [hr], by rw [hr]; simp [Event.touchesStorage], ?_⟩
  intro hne hm hg
  have hF : Font env m g {} =
      { resource := env.DefaultThemeFont {},
        theme := { m with NormalFont := "", BoldFont := "" }, vars := g,
        trace := [Event.log "error loading custom font %q: %s"
          [path, "only .ttf fonts are supported"]] } := by
    simp [Font, loadNormalFont, hm, hne, hg, hr]
  rw [hF]
  refine ⟨hg, rfl, rfl, by simp [Event.touchesStorage], ?_⟩
  intro calls env2
  rw [FontCalls_idle _ g calls rfl rfl]
  simp [Font, loadNormalFont, hg]

/-- Witness of C9: the normal font path `fonts/bold.otf`, a readable file. -/
theorem Font_rejects_non_ttf_normal_witness :
    (Font (sampleEnv ThemeVariant.VariantDark) (sampleFontTheme "fonts/bold.otf" "") noFonts
        {}).vars.normalFont = none ∧
    (Font (sampleEnv ThemeVariant.VariantDark) (sampleFontTheme "fonts/bold.otf" "") noFonts
        {}).theme.NormalFont = "" ∧
    (Font (sampleEnv ThemeVariant.VariantDark) (sampleFontTheme "fonts/bold.otf" "") noFonts
        {}).resource = sampleToolkitFont {} :=
  have h := (Font_rejects_non_ttf_normal (sampleEnv ThemeVariant.VariantDark)
    (sampleFontTheme "fonts/bold.otf" "") noFonts "fonts/bold.otf" (by decide)).2.2
    (by decide) rfl rfl
  ⟨h.1, h.2.1, h.2.2.1⟩

/-- C10, the code at a failing input: a bold-style request with the bold font
path `fonts/bold.otf`, a readable file not ending in ".ttf".  The file is read
without any check of its extension, its bytes are stored (in the normal slot),
`BoldFont` is kept, the bold slot stays unset, and the next bold-style request
reads the file again. -/
theorem Font_bold_skips_extension_check :
    HasSuffix "fonts/bold.otf" ".ttf" = false ∧
    Font (sampleEnv ThemeVariant.VariantDark) (sampleFontTheme "" "fonts/bold.otf") noFonts
        { Bold := true } =
      { resource := NewStaticResource "boldFont" [79, 84, 84, 79],
        theme := sampleFontTheme "" "fonts/bold.otf",
        vars := { normalFont := some (NewStaticResource "boldFont" [79, 84, 84, 79]),
                  boldFont := none },
        trace := [Event.readFile "fonts/bold.otf"] } ∧
    (Font (sampleEnv ThemeVariant.VariantDark) (sampleFontTheme "" "fonts/bold.otf")
        { normalFont := some (NewStaticResource "boldFont" [79, 84, 84, 79]),
          boldFont := none } { Bold := true }).trace = [Event.readFile "fonts/bold.otf"] := by
  decide

theorem Font_normal_eq (env : Env) (m : MyTheme) (g : FontVars) :
    Font env m g {} =
      { resource := ((loadNormalFont env m g).2.1.normalFont).getD (env.DefaultThemeFont {}),
        theme := (loadNormalFont env m g).1, vars := (loadNormalFont env m g).2.1,
        trace := (loadNormalFont env m g).2.2 } := by
  unfold Font
  simp only [if_true]
  cases (loadNormalFont env m g).2.1.normalFont <;> rfl

theorem Font_bold_eq (env : Env) (m : MyTheme) (g : FontVars) :
    Font env m g { Bold := true } =
      { resource := ((loadBoldFont env m g).2.1.boldFont).getD
          (((loadBoldFont env m g).2.1.normalFont).getD (env.DefaultThemeFont { Bold := true })),
        theme := (loadBoldFont env m g).1, vars := (loadBoldFont env m g).2.1,
        trace := (loadBoldFont env m g).2.2 } := by
  unfold Font
  rw [if_neg (by decide), if_pos rfl]
  rcases loadBoldFont env m g with ⟨m1, g1, evs⟩
  obtain ⟨nf, bf⟩ := g1
  cases bf <;> cases nf <;> rfl

theorem loadNormalFont_of_fails (env : Env) (m : MyTheme) (g : FontVars)
    (h : normalLoadFails env m g) :
    loadNormalFont env m g =
      ({ m with NormalFont := "", BoldFont := "" }, g, (readTTFFile env m.NormalFont).2) := by
  obtain ⟨h1, h2, e, he⟩ := h
  unfold loadNormalFont
  rw [if_pos ⟨h1, h2⟩]
  rcases hr : readTTFFile env m.NormalFont with ⟨res, evs⟩
  rw [hr] at he
  cases res with
  | error e2 => rfl
  | ok c => cases he

theorem loadNormalFont_of_not_fails (env : Env) (m : MyTheme) (g : FontVars)
    (h : ¬ normalLoadFails env m g) :
    (loadNormalFont env m g).1 = m := by
  unfold loadNormalFont
  by_cases hc : m.NormalFont ≠ "" ∧ g.normalFont = none
  · rw [if_pos hc]
    rcases hr : readTTFFile env m.NormalFont with ⟨res, evs⟩
    cases res with
    | error e2 => exact absurd ⟨hc.1, hc.2, e2, by rw [hr]⟩ h
    | ok c => rfl
  · rw [if_neg hc]

theorem loadNormalFont_boldFont (env : Env) (m : MyTheme) (g : FontVars) :
    (loadNormalFont env m g).2.1.boldFont = g.boldFont := by
  unfold loadNormalFont
  by_cases hc : m.NormalFont ≠ "" ∧ g.normalFont = none
  · rw [if_pos hc]
    rcases hr : readTTFFile env m.NormalFont with ⟨res, evs⟩
    cases res <;> rfl
  · rw [if_neg hc]

theorem loadBoldFont_of_fails (env : Env) (m : MyTheme) (g : FontVars)
    (h : boldLoadFails env m g) :
    loadBoldFont env m g = ({ m with BoldFont := "" }, g, [Event.readFile m.BoldFont]) := by
  obtain ⟨h1, h2, e, he⟩ := h
  unfold loadBoldFont
  rw [if_pos ⟨h1, h2⟩]
  simp only [he]

theorem loadBoldFont_NormalFont (env : Env) (m : MyTheme) (g : FontVars) :
    (loadBoldFont env m g).1.NormalFont = m.NormalFont := by
  unfold loadBoldFont
  by_cases hc : m.BoldFont ≠ "" ∧ g.boldFont = none
  · rw [if_pos hc]
    cases env.ReadFile m.BoldFont <;> rfl
  · rw [if_neg hc]

theorem loadBoldFont_of_not_fails (env : Env) (m : MyTheme) (g : FontVars)
    (h : ¬ boldLoadFails env m g) :
    (loadBoldFont env m g).1 = m := by
  unfold loadBoldFont
  by_cases hc : m.BoldFont ≠ "" ∧ g.boldFont = none
  · rw [if_pos hc]
    cases hr : env.ReadFile m.BoldFont with
    | error e2 => exact absurd ⟨hc.1, hc.2, e2, hr⟩ h
    | ok c => rfl
  · rw [if_neg hc]

/-- C11, the code at a failing input: both font paths configured and readable.
The first normal-style request caches and returns the bytes of
`fonts/regular.ttf`; a bold-style request then overwrites the normal slot with
the bold file, and the next normal-style request returns the bold bytes
instead of the resource cached before, without reading any file. -/
theorem Font_normal_cache_overwritten_by_bold :
    (Font sampleFontEnv (sampleFontTheme "fonts/regular.ttf" "fonts/bold.ttf") noFonts {}) =
      { resource := NewStaticResource "normalFont" [0, 1, 0, 0],
        theme := sampleFontTheme "fonts/regular.ttf" "fonts/bold.ttf",
        vars := { normalFont := some (NewStaticResource "normalFont" [0, 1, 0, 0]),
                  boldFont := none },
        trace := [Event.readFile "fonts/regular.ttf"] } ∧
    (Font sampleFontEnv (sampleFontTheme "fonts/regular.ttf" "fonts/bold.ttf")
        { normalFont := some (NewStaticResource "normalFont" [0, 1, 0, 0]), boldFont := none }
        { Bold := true }).vars =
      { normalFont := some (NewStaticResource "boldFont" [0, 1, 0, 1]), boldFont := none } ∧
    (Font sampleFontEnv (sampleFontTheme "fonts/regular.ttf" "fonts/bold.ttf")
        { normalFont := some (NewStaticResource "boldFont" [0, 1, 0, 1]), boldFont := none }
        {}) =
      { resource := NewStaticResource "boldFont" [0, 1, 0, 1],
        theme := sampleFontTheme "fonts/regular.ttf" "fonts/bold.ttf",
        vars := { normalFont := some (NewStaticResource "boldFont" [0, 1, 0, 1]),
                  boldFont := none },
        trace := [] } ∧
    NewStaticResource "boldFont" [0, 1, 0, 1] ≠ NewStaticResource "normalFont" [0, 1, 0, 0] := by
  decide

/-- C12, the code at a failing input: a bold-style request with the readable
bold font path `fonts/bold.ttf`.  The bytes are stored in the normal slot, the
bold slot stays unset, and the next bold-style request reads the file again. -/
theorem Font_bold_stored_in_normal_slot :
    Font sampleFontEnv (sampleFontTheme "" "fonts/bold.ttf") noFonts { Bold := true } =
      { resource := NewStaticResource "boldFont" [0, 1, 0, 1],
        theme := sampleFontTheme "" "fonts/bold.ttf",
        vars := { normalFont := some (NewStaticResource "boldFont" [0, 1, 0, 1]),
                  boldFont := none },
        trace := [Event.readFile "fonts/bold.ttf"] } ∧
    (Font sampleFontEnv (sampleFontTheme "" "fonts/bold.ttf")
        { normalFont := some (NewStaticResource "boldFont" [0, 1, 0, 1]), boldFont := none }
        { Bold := true }).trace = [Event.readFile "fonts/bold.ttf"] := by
  decide

/-- Counterexample to C13 as stated: a normal-style request whose load fails
(the path `fonts/bold.otf` does not end in ".ttf") changes `BoldFont`. -/
theorem Font_normal_failure_clears_BoldFont_counterexample :
    (sampleFontTheme "fonts/bold.otf" "fonts/bold.ttf").BoldFont = "fonts/bold.ttf" ∧
    (Font sampleFontEnv (sampleFontTheme "fonts/bold.otf" "fonts/bold.ttf") noFonts
        {}).theme.BoldFont = "" := by
  decide

/-- C13, amended: a normal-style request never changes the bold slot; it leaves
the receiver unchanged unless its load fails, and then clears both `NormalFont`
and `BoldFont`.  A bold-style request never changes `NormalFont`; it leaves the
receiver unchanged unless its load fails, and then clears `BoldFont` only and
leaves both slots unchanged. -/
theorem Font_slots_frame (env : Env) (m : MyTheme) (g : FontVars) :
    (Font env m g {}).vars.boldFont = g.boldFont ∧
    (¬ normalLoadFails env m g → (Font env m g {}).theme = m) ∧
    (normalLoadFails env m g →
      (Font env m g {}).theme = { m with NormalFont := "", BoldFont := "" }) ∧
    (Font env m g { Bold := true }).theme.NormalFont = m.NormalFont ∧
    (¬ boldLoadFails env m g → (Font env m g { Bold := true }).theme = m) ∧
    (boldLoadFails env m g →
      (Font env m g { Bold := true }).theme = { m with BoldFont := "" } ∧
      (Font env m g { Bold := true }).vars = g) := by
  rw [Font_normal_eq, Font_bold_eq]
  refine ⟨loadNormalFont_boldFont env m g, loadNormalFont_of_not_fails env m g, ?_,
    loadBoldFont_NormalFont env m g, loadBoldFont_of_not_fails env m g, ?_⟩
  · intro h
    simp only [loadNormalFont_of_fails env m g h]
  · intro h
    simp only [loadBoldFont_of_fails env m g h, and_self]

/-- Witness of C13, amended: a bold-style request whose file cannot be read
clears `BoldFont` and keeps `NormalFont` and both slots. -/
theorem Font_slots_frame_witness :
    (Font sampleFontEnv (sampleFontTheme "fonts/regular.ttf" "fonts/missing.ttf") noFonts
        { Bold := true }).theme = sampleFontTheme "fonts/regular.ttf" "" ∧
    (Font sampleFontEnv (sampleFontTheme "fonts/regular.ttf" "fonts/missing.ttf") noFonts
        { Bold := true }).vars = noFonts :=
  (Font_slots_frame sampleFontEnv (sampleFontTheme "fonts/regular.ttf" "fonts/missing.ttf")
    noFonts).2.2.2.2.2 ⟨by decide, rfl, "no such file", rfl⟩

theorem loadNormalFont_of_not_loadable (env : Env) (m : MyTheme) (g : FontVars)
    (h : m.NormalFont = "" ∨ ∃ e, (readTTFFile env m.NormalFont).1 = .error e) :
    (loadNormalFont env m g).2.1 = g := by
  unfold loadNormalFont
  by_cases hc : m.NormalFont ≠ "" ∧ g.normalFont = none
  · rw [if_pos hc]
    rcases h with h | ⟨e, he⟩
    · exact absurd h hc.1
    · rcases hr : readTTFFile env m.NormalFont with ⟨res, evs⟩
      rw [hr] at he
      cases res with
      | error e2 => rfl
      | ok c => cases he
  · rw [if_neg hc]

theorem loadBoldFont_of_not_loadable (env : Env) (m : MyTheme) (g : FontVars)
    (h : m.BoldFont = "" ∨ ∃ e, env.ReadFile m.BoldFont = .error e) :
    (loadBoldFont env m g).2.1 = g := by
  unfold loadBoldFont
  by_cases hc : m.BoldFont ≠ "" ∧ g.boldFont = none
  · rw [if_pos hc]
    rcases h with h | ⟨e, he⟩
    · exact absurd h hc.1
    · simp only [he]
  · rw [if_neg hc]

/-- C14: a bold-style request with no bold font cached and none loadable (no
path configured, or the file cannot be read) returns the cached normal font
when the normal slot is populated and the toolkit default font for the bold
style otherwise; a normal-style request with no normal font cached and none
loadable (no path configured, or `readTTFFile` fails) returns the toolkit
default font for the normal style. -/
theorem Font_fallback_chain (env : Env) (m : MyTheme) (g : FontVars) :
    (g.boldFont = none → (m.BoldFont = "" ∨ ∃ e, env.ReadFile m.BoldFont = .error e) →
      (∀ r, g.normalFont = some r → (Font env m g { Bold := true }).resource = r) ∧
      (g.normalFont = none →
        (Font env m g { Bold := true }).resource = env.DefaultThemeFont { Bold := true })) ∧
    (g.normalFont = none →
      (m.NormalFont = "" ∨ ∃ e, (readTTFFile env m.NormalFont).1 = .error e) →
      (Font env m g {}).resource = env.DefaultThemeFont {}) := by
  refine ⟨fun hb hl => ⟨fun r hr => ?_, fun hn => ?_⟩, fun hn hl => ?_⟩
  · rw [Font_bold_eq]
    simp only [loadBoldFont_of_not_loadable env m g hl, hb, hr, Option.getD_none,
      Option.getD_some]
  · rw [Font_bold_eq]
    simp only [loadBoldFont_of_not_loadable env m g hl, hb, hn, Option.getD_none]
  · rw [Font_normal_eq]
    simp only [loadNormalFont_of_not_loadable env m g hl, hn, Option.getD_none]

/-- Witness of C14: the bold file is missing and a normal font is cached. -/
theorem Font_fallback_chain_witness :
    (Font sampleFontEnv (sampleFontTheme "fonts/regular.ttf" "fonts/missing.ttf")
        { normalFont := some (NewStaticResource "normalFont" [0, 1, 0, 0]), boldFont := none }
        { Bold := true }).resource = NewStaticResource "normalFont" [0, 1, 0, 0] ∧
    (Font sampleFontEnv (sampleFontTheme "" "fonts/missing.ttf") noFonts
        { Bold := true }).resource = sampleToolkitFont { Bold := true } ∧
    (Font sampleFontEnv (sampleFontTheme "" "") noFonts {}).resource = sampleToolkitFont {} :=
  ⟨((Font_fallback_chain sampleFontEnv
      (sampleFontTheme "fonts/regular.ttf" "fonts/missing.ttf")
      { normalFont := some (NewStaticResource "normalFont" [0, 1, 0, 0]), boldFont := none }).1
      rfl (Or.inr ⟨"no such file", rfl⟩)).1 _ rfl,
   ((Font_fallback_chain sampleFontEnv (sampleFontTheme "" "fonts/missing.ttf") noFonts).1
      rfl (Or.inr ⟨"no such file", rfl⟩)).2 rfl,
   (Font_fallback_chain sampleFontEnv (sampleFontTheme "" "") noFonts).2 rfl (Or.inl rfl)⟩

/-- C18: for every text style other than the plain style and the bold-only
style, `Font` returns the toolkit default font for that style, reads no file,
and leaves `NormalFont`, `BoldFont` and both cached slots unchanged. -/
theorem Font_other_styles (env : Env) (m : MyTheme) (g : FontVars) (style : TextStyle)
    (h1 : style ≠ {}) (h2 : style ≠ { Bold := true }) :
    Font env m g style =
      { resource := env.DefaultThemeFont style, theme := m, vars := g, trace := [] } := by
  unfold Font
  rw [if_neg h1, if_neg h2]

/-- Witness of C18: the italic, the monospace and the bold italic style, with
both font paths configured and readable. -/
theorem Font_other_styles_witness :
    Font sampleFontEnv (sampleFontTheme "fonts/regular.ttf" "fonts/bold.ttf") noFonts
        { Italic := true } =
      { resource := sampleToolkitFont { Italic := true },
        theme := sampleFontTheme "fonts/regular.ttf" "fonts/bold.ttf", vars := noFonts,
        trace := [] } ∧
    Font sampleFontEnv (sampleFontTheme "fonts/regular.ttf" "fonts/bold.ttf") noFonts
        { Monospace := true } =
      { resource := sampleToolkitFont { Monospace := true },
        theme := sampleFontTheme "fonts/regular.ttf" "fonts/bold.ttf", vars := noFonts,
        trace := [] } ∧
    Font sampleFontEnv (sampleFontTheme "fonts/regular.ttf" "fonts/bold.ttf") noFonts
        { Bold := true, Italic := true } =
      { resource := sampleToolkitFont { Bold := true, Italic := true },
        theme := sampleFontTheme "fonts/regular.ttf" "fonts/bold.ttf", vars := noFonts,
        trace := [] } :=
  ⟨Font_other_styles sampleFontEnv _ noFonts { Italic := true } (by decide) (by decide),
   Font_other_styles sampleFontEnv _ noFonts { Monospace := true } (by decide) (by decide),
   Font_other_styles sampleFontEnv _ noFonts { Bold := true, Italic := true } (by decide)
     (by decide)⟩

/-! ## Themed icons -/

/-- C15: `Content` and `Name` of a themed icon return the dark asset's content
and name when `getVariant` gives Dark and the light asset's otherwise; the
choice follows the configuration of the moment, so the same icon under the
setting "Dark" and then under the setting "Light" returns the dark and then the
light asset; every icon built by `createThemeIcons` carries the receiver. -/
theorem myThemedResource_follows_variant (env : Env) (p : myThemedResource) :
    (getVariant env p.myTheme = ThemeVariant.VariantDark →
      p.Content env = p.darkVariant.StaticContent ∧ p.Name env = p.darkVariant.StaticName) ∧
    (getVariant env p.myTheme ≠ ThemeVariant.VariantDark →
      p.Content env = p.lightVariant.StaticContent ∧ p.Name env = p.lightVariant.StaticName) ∧
    ((p.withAppearance "Dark").Content env = p.darkVariant.StaticContent ∧
      (p.withAppearance "Dark").Name env = p.darkVariant.StaticName ∧
      (p.withAppearance "Light").Content env = p.lightVariant.StaticContent ∧
      (p.withAppearance "Light").Name env = p.lightVariant.StaticName) ∧
    (∀ (res : Res) (m : MyTheme),
      (createThemeIcons res m).AlbumIcon.myTheme = m ∧
      (createThemeIcons res m).ArtistIcon.myTheme = m ∧
      (createThemeIcons res m).FavoriteIcon.myTheme = m ∧
      (createThemeIcons res m).NotFavoriteIcon.myTheme = m ∧
      (createThemeIcons res m).GenreIcon.myTheme = m ∧
      (createThemeIcons res m).NowPlayingIcon.myTheme = m ∧
      (createThemeIcons res m).PlaylistIcon.myTheme = m ∧
      (createThemeIcons res m).ShuffleIcon.myTheme = m ∧
      (createThemeIcons res m).TracksIcon.myTheme = m) := by
  refine ⟨fun h => ?_, fun h => ?_, ?_, fun res m => ?_⟩
  · simp [myThemedResource.Content, myThemedResource.Name, h]
  · simp [myThemedResource.Content, myThemedResource.Name, h]
  · simp [myThemedResource.Content, myThemedResource.Name, myThemedResource.withAppearance,
      withAppearance, getVariant, SliceContains, AppearanceLight, AppearanceDark,
      AppearanceAuto]
  · simp [createThemeIcons]

/-- Witness of C15: the sample icon under the setting "Auto", with a host
reporting Dark and with a host reporting Light. -/
theorem myThemedResource_follows_variant_witness :
    (sampleIcon (sampleTheme "" "Auto")).Content (sampleEnv ThemeVariant.VariantDark) = [255] ∧
    (sampleIcon (sampleTheme "" "Auto")).Name (sampleEnv ThemeVariant.VariantLight) =
      "disc.png" :=
  ⟨((myThemedResource_follows_variant (sampleEnv ThemeVariant.VariantDark)
      (sampleIcon (sampleTheme "" "Auto"))).1 (by decide)).1,
   ((myThemedResource_follows_variant (sampleEnv ThemeVariant.VariantLight)
      (sampleIcon (sampleTheme "" "Auto"))).2.1 (by decide)).2⟩

/-! ## ListThemeFiles -/

/-- C16, the code at a failing input: the directory `themes` holds two
well-formed theme files and one malformed file.  `filepath.Glob` returns the
three paths with the directory in front, two of them parse, and
`ListThemeFiles` joins the directory onto each path once more, reads
`themes/themes/...`, and returns the empty map. -/
theorem ListThemeFiles_joins_directory_twice :
    sampleGlob ((sampleTheme "" "Dark").themeFileDir ++ "/*.toml") =
      ["themes/a.toml", "themes/b.toml", "themes/bad.toml"] ∧
    (sampleGlob "themes/*.toml").filter
        (fun f => match sampleDirEnv.ReadThemeFile f with
          | .ok _ => true
          | .error _ => false) = ["themes/a.toml", "themes/b.toml"] ∧
    sampleDirEnv.pathJoin "themes" "themes/a.toml" = "themes/themes/a.toml" ∧
    ListThemeFiles sampleDirEnv sampleGlob (sampleTheme "" "Dark") = [] ∧
    (ListThemeFiles sampleDirEnv sampleGlob (sampleTheme "" "Dark")).length ≠ 2 := by
  decide

/-! ## Color and its variant argument -/

/-- C17: `Color` does not depend on the variant argument: two calls that differ
only in that argument return the same colour, the same receiver and the same
trace, and the colour is resolved under the variant computed by `getVariant`. -/
theorem Color_ignores_variant_argument (env : Env) (m : MyTheme) (name : ThemeColorName)
    (arg1 arg2 : ThemeVariant) :
    Color env m name arg1 = Color env m name arg2 ∧
    (Color env m name arg1).color =
      colorSwitch env
        (colorsOf (themeFileFor m (activeThemeFile env m) (getVariant env m)) (getVariant env m))
        name (getVariant env m) :=
  ⟨rfl, Color_color env m name arg1⟩

end Supersonic
